import Mathlib

/-!
Verification of the hybrid chunking engine and the document-processing
orchestrator of the agentthink-rag repository
(`app/services/chunker.py`, `app/services/processor.py`).

Text is modelled as `List Char` (written `Str` below); Python string
literals appear as `"...".data`.  Regex-based operations of the source are
embedded as explicit character scanners with the same leftmost,
non-overlapping, greedy matching semantics as Python's `re` module on the
ASCII texts in scope.
-/

/-- Text is a list of characters. -/
abbrev Str := List Char

/-- Python `\s` (ASCII whitespace class: space, tab, newline, carriage
return, vertical tab, form feed). -/
def isPySpace (c : Char) : Bool :=
  c = ' ' || c = '\t' || c = '\n' || c = '\r' || c = '\x0b' || c = '\x0c'

/-- Python `str.strip()`: remove leading and trailing whitespace. -/
def pyStrip (s : Str) : Str :=
  ((s.dropWhile isPySpace).reverse.dropWhile isPySpace).reverse

/-- Python word character class `\w` (ASCII): letters, digits, underscore. -/
def isWordChar (c : Char) : Bool :=
  c.isAlpha || c.isDigit || c = '_'

/-- ASCII upper-case letter, the regex class `[A-Z]`. -/
def isUpperAZ (c : Char) : Bool :=
  'A' ≤ c && c ≤ 'Z'

/-- Remove the literal pattern `p` from the front of `l`; `none` when `l`
does not start with `p`. -/
def dropLit : Str → Str → Option Str
  | [], rest => some rest
  | _ :: _, [] => none
  | a :: as, c :: cs => if c = a then dropLit as cs else none

theorem dropLit_length : ∀ (p l r : Str), dropLit p l = some r →
    r.length + p.length = l.length := by
  intro p
  induction p with
  | nil => intro l r h; cases h; simp
  | cons a as ih =>
    intro l r h
    cases l with
    | nil => simp [dropLit] at h
    | cons c cs =>
      simp only [dropLit] at h
      split at h
      · have := ih cs r h
        simp [List.length_cons]
        omega
      · cases h

/-- Python slice `part[-n:]`: the trailing `n` characters. -/
def takeLast (n : Nat) (l : Str) : Str :=
  l.drop (l.length - n)

theorem takeLast_length_le (n : Nat) (l : Str) : (takeLast n l).length ≤ n := by
  simp [takeLast]
  omega

/-- Given a run of whitespace characters, the number of characters a greedy
`\s*` followed by a literal newline consumes: one past the index of the last
newline in the run; `none` when the run has no newline. -/
def nlConsume : Str → Option Nat
  | [] => none
  | c :: rest =>
    match nlConsume rest with
    | some k => some (k + 1)
    | none => if c = '\n' then some 1 else none

theorem nlConsume_bounds : ∀ (l : Str) (k : Nat), nlConsume l = some k →
    1 ≤ k ∧ k ≤ l.length := by
  intro l
  induction l with
  | nil => intro k h; cases h
  | cons c rest ih =>
    intro k h
    simp only [nlConsume] at h
    cases hr : nlConsume rest with
    | some j =>
      rw [hr] at h
      simp only [Option.some.injEq] at h
      have := ih j hr
      simp only [List.length_cons]
      omega
    | none =>
      rw [hr] at h
      by_cases hc : c = '\n'
      · simp only [hc, if_pos, Option.some.injEq] at h
        simp only [List.length_cons]
        omega
      · rw [if_neg hc] at h
        exact Option.noConfusion h

/-- Python `"\n\n".join(parts)`. -/
def join2nl : List Str → Str
  | [] => []
  | [p] => p
  | p :: rest => p ++ '\n' :: '\n' :: join2nl rest

/-- Python `" ".join(parts)`. -/
def joinSpace : List Str → Str
  | [] => []
  | [p] => p
  | p :: rest => p ++ ' ' :: joinSpace rest

/-!  Paragraph splitting: `re.split(r'\n\s*\n', text)` from
`ChunkingEngine._split_at_paragraphs`.  A match is a newline followed by a
greedy `\s*` and a final newline; the greedy-with-backtracking semantics
consume up to the last newline of the maximal whitespace run that follows
the first newline. -/

/-- Number of characters the `\s*\n` tail of the paragraph pattern consumes
from the text following a first newline; `none` when it cannot match. -/
def paraMatch (rest : Str) : Option Nat :=
  nlConsume (rest.takeWhile isPySpace)

/-- Scanner for `re.split(r'\n\s*\n', text)`; `acc` holds the current
segment reversed.  Every step consumes at least one character, so fuel
equal to the text length makes the scan total; the fuel-exhausted case is
unreachable. -/
def paraSplitGo : Nat → Str → Str → List Str
  | _, [], acc => [acc.reverse]
  | 0, text, acc => [acc.reverse ++ text]
  | fuel + 1, c :: rest, acc =>
    if c = '\n' then
      match paraMatch rest with
      | some k => acc.reverse :: paraSplitGo fuel (rest.drop k) []
      | none => paraSplitGo fuel rest (c :: acc)
    else
      paraSplitGo fuel rest (c :: acc)

/-- `ChunkingEngine._split_at_paragraphs`: split at blank-line boundaries,
strip each piece, drop empty pieces. -/
def split_at_paragraphs (text : Str) : List Str :=
  ((paraSplitGo text.length text []).map pyStrip).filter (fun p => p ≠ [])

/-!  Sentence splitting: `ChunkingEngine._split_at_sentences`.  -/

/-- The class-level `ABBREVIATIONS` set of the source.  Python iterates a
`set` in an unspecified order; the masking outcomes below do not depend on
the order because no abbreviation followed by a dot overlaps another's
match, so the source-literal order is used. -/
def ABBREVIATIONS : List Str :=
  ["Mr".data, "Mrs".data, "Ms".data, "Dr".data, "Prof".data, "Sr".data,
   "Jr".data, "vs".data, "etc".data, "Inc".data, "Ltd".data, "Co".data]

/-- The `<<<DOT>>>` masking token. -/
def maskDot : Str := "<<<DOT>>>".data

/-- Scanner for `re.sub(rf'\b{abbrev}\.', f'{abbrev}<<<DOT>>>', text)`:
`prev` is the character preceding the scan position in the original text
(`none` at the start), used for the `\b` word-boundary test. -/
def subAbbrevGo (ab : Str) : Nat → Option Char → Str → Str
  | _, _, [] => []
  | 0, _, text => text
  | fuel + 1, prev, c :: rest =>
    let boundary := match prev with
      | none => true
      | some p => !(isWordChar p)
    if boundary then
      match dropLit (ab ++ ['.']) (c :: rest) with
      | some rest2 => ab ++ maskDot ++ subAbbrevGo ab fuel (some '.') rest2
      | none => c :: subAbbrevGo ab fuel (some c) rest
    else
      c :: subAbbrevGo ab fuel (some c) rest

/-- One abbreviation-masking pass over the text. -/
def subAbbrev (ab : Str) (text : Str) : Str :=
  subAbbrevGo ab text.length none text

/-- The abbreviation-protection loop of `_split_at_sentences`. -/
def protectAbbrevs (text : Str) : Str :=
  ABBREVIATIONS.foldl (fun t ab => subAbbrev ab t) text

/-- `re.sub(r'(\d)\.(\d)', r'\1<<<DOT>>>\2', text)`: mask decimal dots;
scanning resumes after each match. -/
def subDecimal : Str → Str
  | c1 :: c2 :: c3 :: rest =>
    if c1.isDigit && c2 = '.' && c3.isDigit then
      c1 :: (maskDot ++ c3 :: subDecimal rest)
    else
      c1 :: subDecimal (c2 :: c3 :: rest)
  | l => l

/-- Attempt to match the separator pattern
`(?<=[.!?])\s+(?=[A-Z])|(?<=[.!?])\s*\n` at the current position (the
lookbehind is checked by the caller).  Returns the last character of the
separator (all that later lookbehinds need) and the number of characters
consumed.  The first alternative's greedy `\s+` with an `[A-Z]` lookahead
can only succeed on the full maximal whitespace run; the second consumes up
to the last newline of that run. -/
def sentMatch (cs : Str) : Option (Char × Nat) :=
  let run := cs.takeWhile isPySpace
  let after := cs.drop run.length
  if 0 < run.length && (match after with | a :: _ => isUpperAZ a | [] => false) then
    some (run.getLastD ' ', run.length)
  else
    match nlConsume run with
    | some k => some ('\n', k)
    | none => none

theorem sentMatch_bounds (cs : Str) (a : Char) (k : Nat)
    (h : sentMatch cs = some (a, k)) : 1 ≤ k ∧ k ≤ cs.length := by
  have hrun : (cs.takeWhile isPySpace).length ≤ cs.length :=
    (cs.takeWhile_prefix isPySpace).length_le
  simp only [sentMatch] at h
  split at h
  next hcond =>
    simp only [Bool.and_eq_true, decide_eq_true_eq] at hcond
    simp only [Option.some.injEq, Prod.mk.injEq] at h
    omega
  next hcond =>
    cases hn : nlConsume (cs.takeWhile isPySpace) with
    | some j =>
      rw [hn] at h
      simp only [Option.some.injEq, Prod.mk.injEq] at h
      have := nlConsume_bounds _ _ hn
      omega
    | none =>
      rw [hn] at h
      cases h

/-- Scanner for `SENTENCE_SPLIT_PATTERN.split(text)`: `prev` is the
character before the scan position (for the `(?<=[.!?])` lookbehind), `acc`
the current segment reversed. -/
def sentSplitGo : Nat → Option Char → Str → Str → List Str
  | _, _, [], acc => [acc.reverse]
  | 0, _, text, acc => [acc.reverse ++ text]
  | fuel + 1, prev, c :: rest, acc =>
    let lb := match prev with
      | some p => p = '.' || p = '!' || p = '?'
      | none => false
    if lb then
      match sentMatch (c :: rest) with
      | some st => acc.reverse :: sentSplitGo fuel (some st.1) ((c :: rest).drop st.2) []
      | none => sentSplitGo fuel (some c) rest (c :: acc)
    else
      sentSplitGo fuel (some c) rest (c :: acc)

/-- Python `s.replace('<<<DOT>>>', '.')`: restore the protected dots. -/
def unmaskGo : Nat → Str → Str
  | _, [] => []
  | 0, text => text
  | fuel + 1, c :: rest =>
    match dropLit maskDot (c :: rest) with
    | some rest2 => '.' :: unmaskGo fuel rest2
    | none => c :: unmaskGo fuel rest

/-- Restore every protected dot in a text. -/
def unmask (text : Str) : Str :=
  unmaskGo text.length text

/-- `ChunkingEngine._split_at_sentences`: mask abbreviation and decimal
dots, split at sentence boundaries, unmask, strip, and drop empties. -/
def split_at_sentences (text : Str) : List Str :=
  let protected1 := protectAbbrevs text
  let protected2 := subDecimal protected1
  let sentences := sentSplitGo protected2.length none protected2 []
  (sentences.map (fun s => pyStrip (unmask s))).filter (fun s => s ≠ [])

/-!  The chunking engine: `ChunkingEngine.__init__`, `_get_overlap_parts`,
`_combine_with_overlap`, `_chunk_section`, `_add_context_prefix`,
`chunk_document`.  -/

/-- `ChunkingEngine` configuration: the constructor converts a token budget
to characters (1 token is approximated as 4 characters). -/
structure ChunkingEngine where
  chunk_size_chars : Nat
  chunk_overlap_chars : Nat
deriving DecidableEq

/-- `ChunkingEngine.__init__(chunk_size, chunk_overlap)`. -/
def ChunkingEngine.init (chunk_size chunk_overlap : Nat) : ChunkingEngine :=
  { chunk_size_chars := chunk_size * 4, chunk_overlap_chars := chunk_overlap * 4 }

/-- The loop of `ChunkingEngine._get_overlap_parts`: walk the parts of the
just-closed chunk from the end (`rev` is the reversed part list), keeping
the collected overlap parts in `acc` (original order) and the cumulative
length counter in `olen` (which charges 2 characters per included whole
part for the separator). -/
def overlapGo (e : ChunkingEngine) : List Str → List Str → Nat → List Str × Nat
  | [], acc, olen => (acc, olen)
  | part :: rev, acc, olen =>
    if olen + part.length ≤ e.chunk_overlap_chars then
      overlapGo e rev (part :: acc) (olen + part.length + 2)
    else
      let remaining := e.chunk_overlap_chars - olen
      if remaining > 0 && part.length > 0 then
        (takeLast remaining part :: acc, olen + remaining)
      else
        (acc, olen)

/-- `ChunkingEngine._get_overlap_parts`. -/
def get_overlap_parts (e : ChunkingEngine) (parts : List Str) : List Str × Nat :=
  overlapGo e parts.reverse [] 0

/-- The loop of `ChunkingEngine._combine_with_overlap`: state is the closed
chunks so far, the parts of the current chunk, and the running length
counter.  The separator charge is computed from the current chunk BEFORE a
close, and reused when appending the part to the overlap-seeded new chunk,
exactly as in the source. -/
def combineGo (e : ChunkingEngine) :
    List Str → List Str → Nat → List Str → List Str
  | chunks, current, _, [] =>
    if current = [] then chunks else chunks ++ [join2nl current]
  | chunks, current, len, part :: rest =>
    let sep := if current = [] then 0 else 2
    if len + sep + part.length > e.chunk_size_chars ∧ current ≠ [] then
      let seeded := get_overlap_parts e current
      combineGo e (chunks ++ [join2nl current]) (seeded.1 ++ [part])
        (seeded.2 + sep + part.length) rest
    else
      combineGo e chunks (current ++ [part]) (len + sep + part.length) rest

/-- `ChunkingEngine._combine_with_overlap`. -/
def combine_with_overlap (e : ChunkingEngine) (parts : List Str) : List Str :=
  if parts = [] then [] else combineGo e [] [] 0 parts

/-- `ParsedSection` from `app/services/parser.py`; the open metadata dict is
modelled as an association list (the engine only reads the `"type"` key). -/
structure ParsedSection where
  content : Str
  page_number : Option Nat := none
  section_title : Option Str := none
  doc_type : Str := "unknown".data
  metadata : List (Str × Str) := []
deriving DecidableEq

/-- Python `dict.get(key)` on the association-list model. -/
def dictGet (m : List (Str × Str)) (k : Str) : Option Str :=
  match m.find? (fun kv => kv.1 == k) with
  | some kv => some kv.2
  | none => none

/-- The `section.metadata.get("type") == "table"` check of `chunk_document`. -/
def section_is_table (s : ParsedSection) : Bool :=
  dictGet s.metadata "type".data == some "table".data

/-- `ChunkingEngine._chunk_section`: single chunk when the content fits,
otherwise paragraph split, sentence split of oversized paragraphs, and
greedy recombination with overlap. -/
def chunk_section (e : ChunkingEngine) (s : ParsedSection) : List Str :=
  let content := s.content
  if content.length ≤ e.chunk_size_chars then
    [content]
  else
    let paragraphs := split_at_paragraphs content
    let processed_parts := paragraphs.bind (fun para =>
      if para.length ≤ e.chunk_size_chars then [para] else split_at_sentences para)
    combine_with_overlap e processed_parts

/-- The chunk texts `chunk_document` emits for one section: a table-flagged
section stays intact, any other section goes through `_chunk_section`. -/
def section_texts (e : ChunkingEngine) (s : ParsedSection) : List Str :=
  if section_is_table s then [s.content] else chunk_section e s

/-- The header built by `ChunkingEngine._add_context_prefix`:
`[Document: name]`, then `[Page n]` when the page number is truthy, then
`[Section: title]` when the title is truthy, space-joined. -/
def context_header (s : ParsedSection) (document_name : Str) : Str :=
  joinSpace
    ([("[Document: ".data ++ document_name ++ "]".data)]
     ++ (match s.page_number with
         | some p => if p ≠ 0 then [("[Page ".data ++ Nat.toDigits 10 p ++ "]".data)] else []
         | none => [])
     ++ (match s.section_title with
         | some t => if t ≠ [] then [("[Section: ".data ++ t ++ "]".data)] else []
         | none => []))

/-- `ChunkingEngine._add_context_prefix`: the header, a line break, then
the chunk body. -/
def add_context_header (chunk_text : Str) (s : ParsedSection)
    (document_name : Str) : Str :=
  context_header s document_name ++ '\n' :: chunk_text

/-- The metadata dict attached to every emitted `Chunk` (fixed key set in
the source). -/
structure ChunkMeta where
  page_number : Option Nat
  section_title : Option Str
  chunk_index : Nat
  char_count : Nat
  token_estimate : Nat
  doc_type : Str
  is_table : Bool
deriving DecidableEq

/-- `Chunk` from `app/services/chunker.py`. -/
structure Chunk where
  chunk_id : Str
  content : Str
  document_id : Str
  document_name : Str
  metadata : ChunkMeta
deriving DecidableEq

/-- The chunk-emission loop body of `chunk_document` for one section's
texts: `ids` supplies the `uuid.uuid4()` value of each chunk (indexed by
the document-wide chunk counter), `idx` is the running `chunk_index`. -/
def build_chunks (ids : Nat → Str) (document_id document_name : Str)
    (s : ParsedSection) : Nat → List Str → List Chunk
  | _, [] => []
  | idx, t :: ts =>
    let prefixed_content := add_context_header t s document_name
    { chunk_id := ids idx
      content := prefixed_content
      document_id := document_id
      document_name := document_name
      metadata :=
        { page_number := s.page_number
          section_title := s.section_title
          chunk_index := idx
          char_count := prefixed_content.length
          token_estimate := prefixed_content.length / 4
          doc_type := s.doc_type
          is_table := section_is_table s } }
      :: build_chunks ids document_id document_name s (idx + 1) ts

/-- The section loop of `chunk_document`, threading the document-wide
`chunk_index` counter. -/
def chunk_aux (e : ChunkingEngine) (ids : Nat → Str)
    (document_id document_name : Str) : Nat → List ParsedSection → List Chunk
  | _, [] => []
  | idx, s :: rest =>
    let texts := section_texts e s
    build_chunks ids document_id document_name s idx texts
      ++ chunk_aux e ids document_id document_name (idx + texts.length) rest

/-- `ChunkingEngine.chunk_document`. -/
def chunk_document (e : ChunkingEngine) (ids : Nat → Str)
    (sections : List ParsedSection) (document_id document_name : Str) :
    List Chunk :=
  chunk_aux e ids document_id document_name 0 sections

/-!  The processing orchestrator: `app/services/processor.py`.

`process_document` calls four injected collaborator services inside one
`try` block; a collaborator call is modelled as an `Except Str` value
(`.error e` is a raised exception with message `e`, caught by the
orchestrator's `except` clause).  Wall-clock timing
(`processing_time_seconds`) is not modelled.  Besides the returned
`ProcessingResult`, the model records the sequence of `update_status`
writes to the in-memory registry and the sequence of collaborator calls
actually made. -/

/-- `DocumentStatusResponse` as written by `update_status`. -/
structure DocumentStatusResponse where
  document_id : Str
  status : Str
  chunk_count : Nat
  error_message : Option Str
deriving DecidableEq

/-- `ProcessingResult` from `app/services/processor.py` (timing field not
modelled). -/
structure ProcessingResult where
  document_id : Str
  status : Str
  chunk_count : Nat
  error_message : Option Str
deriving DecidableEq

/-- The injected collaborator services of `DocumentProcessor`, as the
orchestrator sees them: each call either returns a value or raises. -/
structure Collaborators where
  delete_document_chunks : Str → Str → Except Str Nat
  parse : Str → Str → Except Str (List ParsedSection)
  chunk_document : List ParsedSection → Str → Str → Except Str (List Chunk)
  embed_batch : List Str → Nat → Except Str (List (List Int))
  upsert_chunks : Str → List Chunk → List (List Int) → Except Str Nat

/-- A collaborator call site in `process_document`, in pipeline order. -/
inductive CollabCall where
  | delete_document_chunks
  | parse
  | chunk_document
  | embed_batch
  | upsert_chunks
deriving DecidableEq

/-- The observable outcome of one `process_document` run: the returned
result, the sequence of registry writes, and the collaborator calls made. -/
structure RunOutcome where
  result : ProcessingResult
  updates : List DocumentStatusResponse
  calls : List CollabCall
deriving DecidableEq

/-- Index of the last `'.'` (or of any character) in a list. -/
def lastIdxOf (c : Char) (l : Str) : Option Nat :=
  match l with
  | [] => none
  | x :: rest =>
    match lastIdxOf c rest with
    | some j => some (j + 1)
    | none => if x = c then some 0 else none

/-- `pathlib.Path(filename).name`: the part after the last slash. -/
def path_name (p : Str) : Str :=
  match lastIdxOf '/' p with
  | some i => p.drop (i + 1)
  | none => p

/-- `Path(filename).suffix.lower().lstrip('.')`: `Path.suffix` is the part
of the name from its last dot, empty when the dot is the first or last
character; lower-cased, with the leading dot removed. -/
def file_extension (filename : Str) : Str :=
  let name := path_name filename
  match lastIdxOf '.' name with
  | some i =>
    if 0 < i ∧ i + 1 < name.length then (name.drop (i + 1)).map Char.toLower
    else []
  | none => []

/-- `DocumentProcessor.ALLOWED_EXTENSIONS`. -/
def ALLOWED_EXTENSIONS : List Str :=
  ["pdf".data, "docx".data, "csv".data, "txt".data, "md".data]

/-- The registry record written by `update_status(document_id, "processing")`. -/
def processing_status (document_id : Str) : DocumentStatusResponse :=
  { document_id := document_id, status := "processing".data,
    chunk_count := 0, error_message := none }

/-- The registry record written by `_error_result` via `update_status`. -/
def error_status (document_id msg : Str) : DocumentStatusResponse :=
  { document_id := document_id, status := "error".data,
    chunk_count := 0, error_message := some msg }

/-- The `ProcessingResult` built by `DocumentProcessor._error_result`. -/
def error_result (document_id msg : Str) : ProcessingResult :=
  { document_id := document_id, status := "error".data,
    chunk_count := 0, error_message := some msg }

/-- The registry record written on success. -/
def ready_status (document_id : Str) (n : Nat) : DocumentStatusResponse :=
  { document_id := document_id, status := "ready".data,
    chunk_count := n, error_message := none }

/-- The `ProcessingResult` returned on success. -/
def ready_result (document_id : Str) (n : Nat) : ProcessingResult :=
  { document_id := document_id, status := "ready".data,
    chunk_count := n, error_message := none }

/-- `DocumentProcessor.process_document(file_path, project_id, document_id,
filename)`: extension validation, then cleanup, parse, chunk, embed and
store stages, every collaborator exception caught and converted by
`_error_result`. -/
def process_document (c : Collaborators)
    (file_path project_id document_id filename : Str) : RunOutcome :=
  let file_ext := file_extension filename
  if file_ext ∉ ALLOWED_EXTENSIONS then
    { result := error_result document_id ("Unsupported file type: .".data ++ file_ext)
      updates := [error_status document_id ("Unsupported file type: .".data ++ file_ext)]
      calls := [] }
  else
    match c.delete_document_chunks project_id document_id with
    | .error e =>
      { result := error_result document_id e
        updates := [processing_status document_id, error_status document_id e]
        calls := [.delete_document_chunks] }
    | .ok _ =>
      match c.parse file_path file_ext with
      | .error e =>
        { result := error_result document_id e
          updates := [processing_status document_id, error_status document_id e]
          calls := [.delete_document_chunks, .parse] }
      | .ok sections =>
        if sections = [] then
          { result := error_result document_id
              "No content could be extracted from the document".data
            updates := [processing_status document_id,
              error_status document_id
                "No content could be extracted from the document".data]
            calls := [.delete_document_chunks, .parse] }
        else
          match c.chunk_document sections document_id filename with
          | .error e =>
            { result := error_result document_id e
              updates := [processing_status document_id, error_status document_id e]
              calls := [.delete_document_chunks, .parse, .chunk_document] }
          | .ok chunks =>
            if chunks = [] then
              { result := error_result document_id
                  "Document could not be chunked".data
                updates := [processing_status document_id,
                  error_status document_id "Document could not be chunked".data]
                calls := [.delete_document_chunks, .parse, .chunk_document] }
            else
              match c.embed_batch (chunks.map (fun ch => ch.content)) 32 with
              | .error e =>
                { result := error_result document_id e
                  updates := [processing_status document_id,
                    error_status document_id e]
                  calls := [.delete_document_chunks, .parse, .chunk_document,
                    .embed_batch] }
              | .ok embeddings =>
                if embeddings.length ≠ chunks.length then
                  { result := error_result document_id
                      "Embedding generation failed".data
                    updates := [processing_status document_id,
                      error_status document_id "Embedding generation failed".data]
                    calls := [.delete_document_chunks, .parse, .chunk_document,
                      .embed_batch] }
                else
                  match c.upsert_chunks project_id chunks embeddings with
                  | .error e =>
                    { result := error_result document_id e
                      updates := [processing_status document_id,
                        error_status document_id e]
                      calls := [.delete_document_chunks, .parse, .chunk_document,
                        .embed_batch, .upsert_chunks] }
                  | .ok upserted =>
                    if upserted = 0 then
                      { result := error_result document_id
                          "Failed to store vectors in Qdrant".data
                        updates := [processing_status document_id,
                          error_status document_id
                            "Failed to store vectors in Qdrant".data]
                        calls := [.delete_document_chunks, .parse, .chunk_document,
                          .embed_batch, .upsert_chunks] }
                    else
                      { result := ready_result document_id upserted
                        updates := [processing_status document_id,
                          ready_status document_id upserted]
                        calls := [.delete_document_chunks, .parse, .chunk_document,
                          .embed_batch, .upsert_chunks] }

/-- A collaborator call that `process_document` actually reaches raises the
exception message `e` (the pipeline steps before it succeed). -/
def collaborator_raises (c : Collaborators)
    (file_path project_id document_id filename : Str) (e : Str) : Prop :=
  file_extension filename ∈ ALLOWED_EXTENSIONS ∧
  (c.delete_document_chunks project_id document_id = .error e ∨
   ∃ d0, c.delete_document_chunks project_id document_id = .ok d0 ∧
     (c.parse file_path (file_extension filename) = .error e ∨
      ∃ sections, c.parse file_path (file_extension filename) = .ok sections ∧
        sections ≠ [] ∧
        (c.chunk_document sections document_id filename = .error e ∨
         ∃ chunks, c.chunk_document sections document_id filename = .ok chunks ∧
           chunks ≠ [] ∧
           (c.embed_batch (chunks.map (fun ch => ch.content)) 32 = .error e ∨
            ∃ embeddings,
              c.embed_batch (chunks.map (fun ch => ch.content)) 32 = .ok embeddings ∧
              embeddings.length = chunks.length ∧
              c.upsert_chunks project_id chunks embeddings = .error e))))

/-!  Supporting lemmas about the chunk-emission loops.  -/

theorem range'_glue : ∀ (b a c : Nat),
    List.range' a b ++ List.range' (a + b) c = List.range' a (b + c) := by
  intro b
  induction b with
  | zero => intro a c; simp
  | succ m ih =>
    intro a c
    have h1 : a + (m + 1) = (a + 1) + m := by omega
    have h2 : m + 1 + c = (m + c) + 1 := by omega
    rw [h2, List.range'_succ, List.range'_succ, List.cons_append, h1, ih]

theorem build_chunks_length (ids : Nat → Str) (d n : Str) (s : ParsedSection) :
    ∀ (ts : List Str) (idx : Nat),
      (build_chunks ids d n s idx ts).length = ts.length := by
  intro ts
  induction ts with
  | nil => intro idx; rfl
  | cons t ts ih => intro idx; simp [build_chunks, ih]

theorem build_chunks_indices (ids : Nat → Str) (d n : Str) (s : ParsedSection) :
    ∀ (ts : List Str) (idx : Nat),
      (build_chunks ids d n s idx ts).map (fun c => c.metadata.chunk_index)
        = List.range' idx ts.length := by
  intro ts
  induction ts with
  | nil => intro idx; rfl
  | cons t ts ih => intro idx; simp [build_chunks, ih, List.range'_succ]

theorem chunk_aux_indices (e : ChunkingEngine) (ids : Nat → Str) (d n : Str) :
    ∀ (sections : List ParsedSection) (idx : Nat),
      (chunk_aux e ids d n idx sections).map (fun c => c.metadata.chunk_index)
        = List.range' idx (chunk_aux e ids d n idx sections).length := by
  intro sections
  induction sections with
  | nil => intro idx; rfl
  | cons s rest ih =>
    intro idx
    simp only [chunk_aux, List.map_append, List.length_append,
      build_chunks_indices, build_chunks_length, ih]
    rw [range'_glue]

theorem chunk_aux_append (e : ChunkingEngine) (ids : Nat → Str) (d n : Str) :
    ∀ (xs ys : List ParsedSection) (idx : Nat),
      chunk_aux e ids d n idx (xs ++ ys)
        = chunk_aux e ids d n idx xs
          ++ chunk_aux e ids d n (idx + (chunk_aux e ids d n idx xs).length) ys := by
  intro xs
  induction xs with
  | nil => intro ys idx; simp [chunk_aux]
  | cons s xs ih =>
    intro ys idx
    simp only [List.cons_append, chunk_aux, List.append_eq, List.append_assoc,
      List.length_append, build_chunks_length, ih, Nat.add_assoc]

/-- A section whose emitted texts are a single text `t` contributes exactly
one chunk to the document, between the chunks of the preceding and the
following sections, carrying the next running `chunk_index`. -/
theorem chunk_aux_single (e : ChunkingEngine) (ids : Nat → Str) (d n : Str)
    (pre post : List ParsedSection) (s : ParsedSection) (t : Str)
    (h : section_texts e s = [t]) :
    chunk_document e ids (pre ++ s :: post) d n
      = chunk_document e ids pre d n
        ++ ({ chunk_id := ids (chunk_document e ids pre d n).length
              content := add_context_header t s n
              document_id := d
              document_name := n
              metadata :=
                { page_number := s.page_number
                  section_title := s.section_title
                  chunk_index := (chunk_document e ids pre d n).length
                  char_count := (add_context_header t s n).length
                  token_estimate := (add_context_header t s n).length / 4
                  doc_type := s.doc_type
                  is_table := section_is_table s } }
            :: chunk_aux e ids d n ((chunk_document e ids pre d n).length + 1) post) := by
  unfold chunk_document
  rw [chunk_aux_append e ids d n pre (s :: post) 0]
  congr 1
  simp [chunk_aux, h, build_chunks]

/-- C1: For every list of Sections and every document_id and document_name,
the chunk_index values in the metadata of the Chunks returned by
`chunk_document`, read in output order, are exactly `0, 1, ..., n-1`
(`n` the total number of chunks emitted), contiguous across all sections
with no gaps or repeats and never reset mid-document. -/
theorem chunk_index_contiguous (e : ChunkingEngine) (ids : Nat → Str)
    (sections : List ParsedSection) (document_id document_name : Str) :
    (chunk_document e ids sections document_id document_name).map
        (fun c => c.metadata.chunk_index)
      = List.range (chunk_document e ids sections document_id document_name).length := by
  rw [List.range_eq_range']
  exact chunk_aux_indices e ids document_id document_name sections 0

/-- A table-flagged section's emitted texts are its content, unsplit. -/
theorem section_texts_table (e : ChunkingEngine) (s : ParsedSection)
    (h : section_is_table s = true) : section_texts e s = [s.content] := by
  simp [section_texts, h]

/-- C2: For every Section whose metadata marks it as a table,
`chunk_document` emits exactly one Chunk for that Section, regardless of
`max_chunk_chars`, and that Chunk's content equals the context prefix
followed by a line break and the section's content unmodified (tables are
never split). -/
theorem table_section_single_chunk (e : ChunkingEngine) (ids : Nat → Str)
    (document_id document_name : Str) (pre post : List ParsedSection)
    (s : ParsedSection) (h : section_is_table s = true) :
    chunk_document e ids (pre ++ s :: post) document_id document_name
      = chunk_document e ids pre document_id document_name
        ++ ({ chunk_id := ids (chunk_document e ids pre document_id document_name).length
              content := context_header s document_name ++ '\n' :: s.content
              document_id := document_id
              document_name := document_name
              metadata :=
                { page_number := s.page_number
                  section_title := s.section_title
                  chunk_index := (chunk_document e ids pre document_id document_name).length
                  char_count := (context_header s document_name ++ '\n' :: s.content).length
                  token_estimate :=
                    (context_header s document_name ++ '\n' :: s.content).length / 4
                  doc_type := s.doc_type
                  is_table := true } }
            :: chunk_aux e ids document_id document_name
                ((chunk_document e ids pre document_id document_name).length + 1) post) := by
  have h1 := chunk_aux_single e ids document_id document_name pre post s s.content
    (section_texts_table e s h)
  simpa [add_context_header, h] using h1

/-- A deterministic stand-in for the `uuid.uuid4()` supply. -/
def sample_ids : Nat → Str := fun k => "id-".data ++ Nat.toDigits 10 k

/-- A table-flagged section larger than the tiny demo chunk budget. -/
def table_demo_section : ParsedSection :=
  { content := "abcdefgh".data, doc_type := "pdf".data,
    metadata := [("type".data, "table".data)] }

/-- A section with empty content. -/
def empty_demo_section : ParsedSection := { content := [] }

/-- C3 counterexample: a Section with empty content does NOT produce zero
chunks — `chunk_document` (default configuration) emits exactly one Chunk
for it, because the empty content falls into the fits-in-one-chunk branch
of `_chunk_section`. -/
theorem empty_section_emits_one_chunk_ce :
    chunk_document (ChunkingEngine.init 512 50) sample_ids [empty_demo_section]
        "doc-1".data "doc.txt".data ≠ []
    ∧ (chunk_document (ChunkingEngine.init 512 50) sample_ids [empty_demo_section]
        "doc-1".data "doc.txt".data).length = 1 := by
  constructor
  · decide
  · decide

/-- A section with empty content has the same emitted texts as a table
section: the single (empty) content string. -/
theorem section_texts_empty_content (e : ChunkingEngine) (s : ParsedSection)
    (h : s.content = []) : section_texts e s = [s.content] := by
  simp [section_texts, chunk_section, h]

/-- C3 amended: a Section whose content is the empty string yields exactly
ONE Chunk (not zero) whose body is empty — its content is just the context
prefix and the line break — and the engine does not raise on empty input
(the embedding is a total function). -/
theorem empty_section_single_empty_chunk (e : ChunkingEngine) (ids : Nat → Str)
    (document_id document_name : Str) (pre post : List ParsedSection)
    (s : ParsedSection) (h : s.content = []) :
    chunk_document e ids (pre ++ s :: post) document_id document_name
      = chunk_document e ids pre document_id document_name
        ++ ({ chunk_id := ids (chunk_document e ids pre document_id document_name).length
              content := context_header s document_name ++ ['\n']
              document_id := document_id
              document_name := document_name
              metadata :=
                { page_number := s.page_number
                  section_title := s.section_title
                  chunk_index := (chunk_document e ids pre document_id document_name).length
                  char_count := (context_header s document_name ++ ['\n']).length
                  token_estimate := (context_header s document_name ++ ['\n']).length / 4
                  doc_type := s.doc_type
                  is_table := section_is_table s } }
            :: chunk_aux e ids document_id document_name
                ((chunk_document e ids pre document_id document_name).length + 1) post) := by
  have h1 := chunk_aux_single e ids document_id document_name pre post s s.content
    (section_texts_empty_content e s h)
  simpa [add_context_header, h] using h1

/-- Closed instance of the amended C3 theorem at a concrete empty section. -/
theorem empty_section_single_empty_chunk_check :
    chunk_document (ChunkingEngine.init 512 50) sample_ids
        ([] ++ empty_demo_section :: []) "doc-1".data "doc.txt".data
      = chunk_document (ChunkingEngine.init 512 50) sample_ids []
          "doc-1".data "doc.txt".data
        ++ ({ chunk_id := sample_ids (chunk_document (ChunkingEngine.init 512 50)
                sample_ids [] "doc-1".data "doc.txt".data).length
              content := context_header empty_demo_section "doc.txt".data ++ ['\n']
              document_id := "doc-1".data
              document_name := "doc.txt".data
              metadata :=
                { page_number := empty_demo_section.page_number
                  section_title := empty_demo_section.section_title
                  chunk_index := (chunk_document (ChunkingEngine.init 512 50)
                    sample_ids [] "doc-1".data "doc.txt".data).length
                  char_count := (context_header empty_demo_section "doc.txt".data ++ ['\n']).length
                  token_estimate :=
                    (context_header empty_demo_section "doc.txt".data ++ ['\n']).length / 4
                  doc_type := empty_demo_section.doc_type
                  is_table := section_is_table empty_demo_section } }
            :: chunk_aux (ChunkingEngine.init 512 50) sample_ids
                "doc-1".data "doc.txt".data
                ((chunk_document (ChunkingEngine.init 512 50) sample_ids []
                  "doc-1".data "doc.txt".data).length + 1) []) :=
  empty_section_single_empty_chunk (ChunkingEngine.init 512 50) sample_ids
    "doc-1".data "doc.txt".data [] [] empty_demo_section (by decide)

/-- Closed instance of the C2 theorem at a concrete oversized table
section (chunk budget far smaller than the table). -/
theorem table_section_single_chunk_check :
    chunk_document (ChunkingEngine.init 1 1) sample_ids
        ([] ++ table_demo_section :: []) "doc-1".data "data.pdf".data
      = chunk_document (ChunkingEngine.init 1 1) sample_ids []
          "doc-1".data "data.pdf".data
        ++ ({ chunk_id := sample_ids (chunk_document (ChunkingEngine.init 1 1)
                sample_ids [] "doc-1".data "data.pdf".data).length
              content := context_header table_demo_section "data.pdf".data
                ++ '\n' :: table_demo_section.content
              document_id := "doc-1".data
              document_name := "data.pdf".data
              metadata :=
                { page_number := table_demo_section.page_number
                  section_title := table_demo_section.section_title
                  chunk_index := (chunk_document (ChunkingEngine.init 1 1)
                    sample_ids [] "doc-1".data "data.pdf".data).length
                  char_count := (context_header table_demo_section "data.pdf".data
                    ++ '\n' :: table_demo_section.content).length
                  token_estimate := (context_header table_demo_section "data.pdf".data
                    ++ '\n' :: table_demo_section.content).length / 4
                  doc_type := table_demo_section.doc_type
                  is_table := true } }
            :: chunk_aux (ChunkingEngine.init 1 1) sample_ids
                "doc-1".data "data.pdf".data
                ((chunk_document (ChunkingEngine.init 1 1) sample_ids []
                  "doc-1".data "data.pdf".data).length + 1) []) :=
  table_section_single_chunk (ChunkingEngine.init 1 1) sample_ids
    "doc-1".data "data.pdf".data [] [] table_demo_section (by decide)

/-- Total character length of a list of parts. -/
def sum_lengths : List Str → Nat
  | [] => 0
  | p :: rest => p.length + sum_lengths rest

theorem sum_lengths_le_join2nl : ∀ (ps : List Str),
    sum_lengths ps ≤ (join2nl ps).length := by
  intro ps
  induction ps with
  | nil => simp [sum_lengths, join2nl]
  | cons p rest ih =>
    cases rest with
    | nil => simp [sum_lengths, join2nl]
    | cons q rs =>
      have hj : join2nl (p :: q :: rs) = p ++ '\n' :: '\n' :: join2nl (q :: rs) := rfl
      simp only [sum_lengths, hj, List.length_append, List.length_cons] at ih ⊢
      omega

/-- Invariant of the `_get_overlap_parts` loop: if the separator-charged
counter dominates the joined length of the collected overlap and that
joined length is within the overlap budget, both facts persist to the
result. -/
theorem overlapGo_join_le (e : ChunkingEngine) :
    ∀ (rev acc : List Str) (olen : Nat),
      (acc ≠ [] → (join2nl acc).length + 2 ≤ olen) →
      (join2nl acc).length ≤ e.chunk_overlap_chars →
      (join2nl (overlapGo e rev acc olen).1).length ≤ e.chunk_overlap_chars := by
  intro rev
  induction rev with
  | nil => intro acc olen _ h2; exact h2
  | cons part rev ih =>
    intro acc olen h1 h2
    simp only [overlapGo]
    split
    next hle =>
      apply ih
      · intro _
        cases acc with
        | nil =>
          have hj : join2nl [part] = part := rfl
          simp only [hj]
          omega
        | cons a as =>
          have hj : join2nl (part :: a :: as) = part ++ '\n' :: '\n' :: join2nl (a :: as) := rfl
          have ha := h1 (by simp)
          simp only [hj, List.length_append, List.length_cons]
          omega
      · cases acc with
        | nil =>
          have hj : join2nl [part] = part := rfl
          simp only [hj]
          omega
        | cons a as =>
          have hj : join2nl (part :: a :: as) = part ++ '\n' :: '\n' :: join2nl (a :: as) := rfl
          have ha := h1 (by simp)
          simp only [hj, List.length_append, List.length_cons]
          omega
    next hgt =>
      split
      next hrem =>
        simp only [Bool.and_eq_true, decide_eq_true_eq] at hrem
        have ht := takeLast_length_le (e.chunk_overlap_chars - olen) part
        cases acc with
        | nil =>
          have hj : join2nl [takeLast (e.chunk_overlap_chars - olen) part]
              = takeLast (e.chunk_overlap_chars - olen) part := rfl
          simp only [hj]
          omega
        | cons a as =>
          have hj : join2nl (takeLast (e.chunk_overlap_chars - olen) part :: a :: as)
              = takeLast (e.chunk_overlap_chars - olen) part
                ++ '\n' :: '\n' :: join2nl (a :: as) := rfl
          have ha := h1 (by simp)
          simp only [hj, List.length_append, List.length_cons]
          omega
      next hrem =>
        exact h2

/-- C4: The overlap collected by `_get_overlap_parts` from the tail of a
just-closed chunk — the seed of the next chunk — has total length at most
`overlap_chars`, both as the raw sum of the collected parts' lengths and
as the blank-line-joined text that starts the next chunk. -/
theorem overlap_length_le_budget (e : ChunkingEngine) (parts : List Str) :
    sum_lengths (get_overlap_parts e parts).1 ≤ e.chunk_overlap_chars ∧
    (join2nl (get_overlap_parts e parts).1).length ≤ e.chunk_overlap_chars := by
  have hJ : (join2nl (get_overlap_parts e parts).1).length ≤ e.chunk_overlap_chars := by
    unfold get_overlap_parts
    exact overlapGo_join_le e parts.reverse [] 0 (fun h => absurd rfl h)
      (by simp [join2nl])
  exact ⟨le_trans (sum_lengths_le_join2nl _) hJ, hJ⟩

/-- Everything a Chunk carries except its opaque `chunk_id`. -/
def chunk_observable (c : Chunk) : Str × Str × Str × ChunkMeta :=
  (c.content, c.document_id, c.document_name, c.metadata)

theorem build_chunks_observable (ids1 ids2 : Nat → Str) (d n : Str)
    (s : ParsedSection) : ∀ (ts : List Str) (idx : Nat),
      (build_chunks ids1 d n s idx ts).map chunk_observable
        = (build_chunks ids2 d n s idx ts).map chunk_observable := by
  intro ts
  induction ts with
  | nil => intro idx; rfl
  | cons t ts ih => intro idx; simp [build_chunks, chunk_observable, ih]

theorem chunk_aux_observable (e : ChunkingEngine) (ids1 ids2 : Nat → Str)
    (d n : Str) : ∀ (sections : List ParsedSection) (idx : Nat),
      (chunk_aux e ids1 d n idx sections).map chunk_observable
        = (chunk_aux e ids2 d n idx sections).map chunk_observable := by
  intro sections
  induction sections with
  | nil => intro idx; rfl
  | cons s rest ih =>
    intro idx
    simp only [chunk_aux, List.map_append, ih, build_chunks_observable ids1 ids2]

/-- C9: Chunking is deterministic modulo `chunk_id`: two runs of
`chunk_document` on identical Sections, document_id, document_name and
configuration, differing only in the opaque id supply, yield the same
number of chunks and identical ordered (content, document_id,
document_name, metadata) tuples. -/
theorem chunking_deterministic_modulo_chunk_id (e : ChunkingEngine)
    (ids1 ids2 : Nat → Str) (sections : List ParsedSection)
    (document_id document_name : Str) :
    (chunk_document e ids1 sections document_id document_name).map chunk_observable
      = (chunk_document e ids2 sections document_id document_name).map chunk_observable
    ∧ (chunk_document e ids1 sections document_id document_name).length
      = (chunk_document e ids2 sections document_id document_name).length := by
  have h := chunk_aux_observable e ids1 ids2 document_id document_name sections 0
  refine ⟨h, ?_⟩
  have h2 := congrArg List.length h
  simpa using h2

/-- C5: Sentence splitting masks abbreviation and decimal dots before
splitting and unmasks after: the first input splits only at the real
sentence boundary, keeping "Dr. Smith" and "Mr. Jones" intact; the second
yields exactly two fragments, split only after "3.14159." and never after
"3.". -/
theorem sentence_split_protects_abbreviations_and_decimals :
    split_at_sentences "Dr. Smith went to the store. He met Mr. Jones there.".data
      = ["Dr. Smith went to the store.".data, "He met Mr. Jones there.".data]
    ∧ split_at_sentences "The value is 3.14159. This is pi.".data
      = ["The value is 3.14159.".data, "This is pi.".data] := by
  constructor
  · decide
  · decide

/-- A non-table section whose splitting yields one unsplittable part
longer than the chunk budget. -/
def oversized_demo_section : ParsedSection := { content := "abcdefgh".data }

/-- C10: `max_chunk_chars` is a target, not a hard bound: an oversized
section with a single unsplittable part is emitted as one chunk whose body
exceeds `chunk_size_chars`; and after a chunk closes, the next part is
appended to the overlap-seeded new chunk without re-checking the limit, so
that chunk also exceeds `chunk_size_chars`. -/
theorem size_is_target_not_bound :
    (chunk_section (ChunkingEngine.init 1 1) oversized_demo_section
        = [oversized_demo_section.content]
      ∧ oversized_demo_section.content.length
          > (ChunkingEngine.init 1 1).chunk_size_chars
      ∧ (chunk_document (ChunkingEngine.init 1 1) sample_ids
            [oversized_demo_section] "doc-1".data "n".data).map (fun c => c.content)
          = ["[Document: n]\nabcdefgh".data])
    ∧ (combine_with_overlap (ChunkingEngine.init 1 1) ["abcd".data, "wxyz".data]
        = ["abcd".data, "abcd\n\nwxyz".data]
      ∧ ("abcd\n\nwxyz".data).length > (ChunkingEngine.init 1 1).chunk_size_chars) := by
  refine ⟨⟨by decide, by decide, by decide⟩, by decide, by decide⟩

/-- C6: `process_document` always returns a `ProcessingResult` with a
terminal status and never raises (totality of the embedding), and any
exception raised by the cleanup/parse/chunk/embed/store collaborator at the
stage it is actually reached is caught and converted to an error result —
and an error registry entry — whose `error_message` is the exception's
message text. -/
theorem process_document_total_and_catches (c : Collaborators)
    (file_path project_id document_id filename : Str) :
    ((process_document c file_path project_id document_id filename).result.status
        = "ready".data
      ∨ (process_document c file_path project_id document_id filename).result.status
        = "error".data)
    ∧ (∀ e, collaborator_raises c file_path project_id document_id filename e →
        (process_document c file_path project_id document_id filename).result
          = error_result document_id e
        ∧ (process_document c file_path project_id document_id
            filename).updates.getLast? = some (error_status document_id e)) := by
  constructor
  · simp only [process_document]
    repeat' split
    all_goals first | (left; rfl) | (right; rfl)
  · intro e h
    obtain ⟨hsup, hca⟩ := h
    simp only [process_document]
    rw [if_neg (not_not_intro hsup)]
    rcases hca with hdel | ⟨d0, hd, hca⟩
    · rw [hdel]
      exact ⟨rfl, rfl⟩
    · simp only [hd]
      rcases hca with hpar | ⟨sections, hp, hsne, hca⟩
      · rw [hpar]
        exact ⟨rfl, rfl⟩
      · simp only [hp, if_neg hsne]
        rcases hca with hch | ⟨chunks, hc2, hcne, hca⟩
        · rw [hch]
          exact ⟨rfl, rfl⟩
        · simp only [hc2, if_neg hcne]
          rcases hca with hem | ⟨embeddings, he, hlen, hup⟩
          · rw [hem]
            exact ⟨rfl, rfl⟩
          · simp only [he, if_neg (not_not_intro hlen), hup]
            constructor <;> trivial

/-- Collaborators whose parse stage raises `boom`. -/
def boom_collaborators : Collaborators :=
  { delete_document_chunks := fun _ _ => .ok 0
    parse := fun _ _ => .error "boom".data
    chunk_document := fun _ _ _ => .ok []
    embed_batch := fun _ _ => .ok []
    upsert_chunks := fun _ _ _ => .ok 0 }

/-- Closed instance of the C6 theorem: a parse exception `boom` surfaces as
an error result and an error registry entry carrying the message `boom`. -/
theorem process_document_total_and_catches_check :
    (process_document boom_collaborators "/tmp/a.txt".data "proj-1".data
        "doc-1".data "a.txt".data).result
      = error_result "doc-1".data "boom".data
    ∧ (process_document boom_collaborators "/tmp/a.txt".data "proj-1".data
        "doc-1".data "a.txt".data).updates.getLast?
      = some (error_status "doc-1".data "boom".data) :=
  (process_document_total_and_catches boom_collaborators "/tmp/a.txt".data
      "proj-1".data "doc-1".data "a.txt".data).2
    "boom".data ⟨by decide, Or.inr ⟨0, rfl, Or.inl rfl⟩⟩

/-- C7: if the lower-cased file extension is not in the supported set,
`process_document` immediately returns an error result with message
`Unsupported file type: .<ext>`, makes no collaborator call whatsoever
(no cleanup, no parse), writes only the error registry entry, and does
not raise. -/
theorem unsupported_extension_immediate_error (c : Collaborators)
    (file_path project_id document_id filename : Str)
    (h : file_extension filename ∉ ALLOWED_EXTENSIONS) :
    process_document c file_path project_id document_id filename
      = { result := error_result document_id
            ("Unsupported file type: .".data ++ file_extension filename)
          updates := [error_status document_id
            ("Unsupported file type: .".data ++ file_extension filename)]
          calls := [] } := by
  simp only [process_document]
  rw [if_pos h]

/-- Closed instance of the C7 theorem at the unsupported filename
`malware.exe`. -/
theorem unsupported_extension_immediate_error_check :
    process_document boom_collaborators "/tmp/m.exe".data "proj-1".data
        "doc-1".data "malware.exe".data
      = { result := error_result "doc-1".data
            ("Unsupported file type: .".data ++ file_extension "malware.exe".data)
          updates := [error_status "doc-1".data
            ("Unsupported file type: .".data ++ file_extension "malware.exe".data)]
          calls := [] } :=
  unsupported_extension_immediate_error boom_collaborators "/tmp/m.exe".data
    "proj-1".data "doc-1".data "malware.exe".data (by decide)

/-- A concrete chunk for exercising the store stage. -/
def demo_chunk : Chunk :=
  { chunk_id := "c-1".data
    content := "body".data
    document_id := "doc-1".data
    document_name := "a.txt".data
    metadata :=
      { page_number := none
        section_title := none
        chunk_index := 0
        char_count := 4
        token_estimate := 1
        doc_type := "txt".data
        is_table := false } }

/-- Collaborators that succeed through every stage but whose store reports
zero upserted vectors. -/
def store_zero_collaborators : Collaborators :=
  { delete_document_chunks := fun _ _ => .ok 0
    parse := fun _ _ => .ok [{ content := "hello".data }]
    chunk_document := fun _ _ _ => .ok [demo_chunk]
    embed_batch := fun _ _ => .ok [[1]]
    upsert_chunks := fun _ _ _ => .ok 0 }

/-- C8 counterexample: when the store reports an upserted count of 0 the
run does end in an error, but the recorded message is
`Failed to store vectors in Qdrant`, not the claimed exact text
`Failed to store vectors`. -/
theorem store_zero_message_ce :
    (process_document store_zero_collaborators "/tmp/a.txt".data "proj-1".data
        "doc-1".data "a.txt".data).result.status = "error".data
    ∧ (process_document store_zero_collaborators "/tmp/a.txt".data "proj-1".data
        "doc-1".data "a.txt".data).result.error_message
      = some "Failed to store vectors in Qdrant".data
    ∧ ¬ ((process_document store_zero_collaborators "/tmp/a.txt".data "proj-1".data
        "doc-1".data "a.txt".data).result.error_message
      = some "Failed to store vectors".data) := by
  refine ⟨by decide, by decide, by decide⟩

/-- C8 amended: in the store stage, an upserted count of 0 ends the run
with terminal status `error` and error_message exactly
`Failed to store vectors in Qdrant`; any non-zero count ends it with
status `ready` and `chunk_count` equal to the reported count. -/
theorem store_stage_outcome (c : Collaborators)
    (file_path project_id document_id filename : Str)
    (d0 : Nat) (sections : List ParsedSection) (chunks : List Chunk)
    (embeddings : List (List Int)) (m : Nat)
    (hsup : file_extension filename ∈ ALLOWED_EXTENSIONS)
    (hd : c.delete_document_chunks project_id document_id = .ok d0)
    (hp : c.parse file_path (file_extension filename) = .ok sections)
    (hs : sections ≠ [])
    (hc : c.chunk_document sections document_id filename = .ok chunks)
    (hcne : chunks ≠ [])
    (he : c.embed_batch (chunks.map (fun ch => ch.content)) 32 = .ok embeddings)
    (hlen : embeddings.length = chunks.length)
    (hu : c.upsert_chunks project_id chunks embeddings = .ok m) :
    process_document c file_path project_id document_id filename
      = if m = 0 then
          { result := error_result document_id
              "Failed to store vectors in Qdrant".data
            updates := [processing_status document_id,
              error_status document_id "Failed to store vectors in Qdrant".data]
            calls := [.delete_document_chunks, .parse, .chunk_document,
              .embed_batch, .upsert_chunks] }
        else
          { result := ready_result document_id m
            updates := [processing_status document_id, ready_status document_id m]
            calls := [.delete_document_chunks, .parse, .chunk_document,
              .embed_batch, .upsert_chunks] } := by
  simp only [process_document]
  rw [if_neg (not_not_intro hsup)]
  simp only [hd, hp, if_neg hs, hc, if_neg hcne, he, if_neg (not_not_intro hlen),
    hu]

/-- Collaborators identical to `store_zero_collaborators` except the store
reports 2 upserted vectors. -/
def store_two_collaborators : Collaborators :=
  { delete_document_chunks := fun _ _ => .ok 0
    parse := fun _ _ => .ok [{ content := "hello".data }]
    chunk_document := fun _ _ _ => .ok [demo_chunk]
    embed_batch := fun _ _ => .ok [[1]]
    upsert_chunks := fun _ _ _ => .ok 2 }

/-- Closed instance of the amended C8 theorem on a run whose store reports
2 upserted vectors. -/
theorem store_stage_outcome_check :
    process_document store_two_collaborators "/tmp/a.txt".data "proj-1".data
        "doc-1".data "a.txt".data
      = if 2 = 0 then
          { result := error_result "doc-1".data
              "Failed to store vectors in Qdrant".data
            updates := [processing_status "doc-1".data,
              error_status "doc-1".data "Failed to store vectors in Qdrant".data]
            calls := [.delete_document_chunks, .parse, .chunk_document,
              .embed_batch, .upsert_chunks] }
        else
          { result := ready_result "doc-1".data 2
            updates := [processing_status "doc-1".data,
              ready_status "doc-1".data 2]
            calls := [.delete_document_chunks, .parse, .chunk_document,
              .embed_batch, .upsert_chunks] } :=
  store_stage_outcome store_two_collaborators "/tmp/a.txt".data "proj-1".data
    "doc-1".data "a.txt".data 0 [{ content := "hello".data }] [demo_chunk]
    [[1]] 2 (by decide) rfl rfl (by decide) rfl (by decide) rfl rfl rfl
